import Mathlib

/-!
Shallow embedding of the MCommon transformation-manipulator subsystem
(src/dev/Gems/EMotionFX/Code/EMotionFX/Rendering/Common/TransformationManipulator.h).

Floating-point vectors and quaternions are modelled over exact rationals;
raw pointers are modelled as optional identifiers.  Each C++ member
function that mutates the object becomes a Lean function from the state
to the new state.
-/

namespace MCore

/-- MCore::Vector3, with float components modelled as rationals. -/
structure Vector3 where
  x : Rat
  y : Rat
  z : Rat
  deriving DecidableEq, Repr

/-- Componentwise vector addition. -/
def Vector3.add (a b : Vector3) : Vector3 :=
  ⟨a.x + b.x, a.y + b.y, a.z + b.z⟩

/-- Componentwise vector subtraction. -/
def Vector3.sub (a b : Vector3) : Vector3 :=
  ⟨a.x - b.x, a.y - b.y, a.z - b.z⟩

instance : Add Vector3 := ⟨Vector3.add⟩

instance : Sub Vector3 := ⟨Vector3.sub⟩

/-- MCore::Quaternion, with float components modelled as rationals. -/
structure Quaternion where
  x : Rat
  y : Rat
  z : Rat
  w : Rat
  deriving DecidableEq, Repr

end MCore

namespace MCommon

/-- MCommon::ManipulatorCallback state: the four value members and the
actor-instance back pointer (header lines 100-104). -/
structure ManipulatorCallback where
  mOldValueQuat  : MCore.Quaternion
  mCurrValueQuat : MCore.Quaternion
  mOldValueVec   : MCore.Vector3
  mCurrValueVec  : MCore.Vector3
  mActorInstance : Option Nat
  deriving DecidableEq, Repr

namespace ManipulatorCallback

/-- The vector constructor
`ManipulatorCallback(ActorInstance*, const Vector3&)` (header lines 35-42). -/
def mkVec (actorInstance : Option Nat) (oldValue : MCore.Vector3) :
    ManipulatorCallback where
  mActorInstance := actorInstance
  mOldValueVec   := oldValue
  mCurrValueVec  := oldValue
  mCurrValueQuat := ⟨0, 0, 0, 1⟩
  mOldValueQuat  := ⟨0, 0, 0, 1⟩

/-- The quaternion constructor
`ManipulatorCallback(ActorInstance*, const Quaternion&)` (header lines 47-54). -/
def mkQuat (actorInstance : Option Nat) (oldValue : MCore.Quaternion) :
    ManipulatorCallback where
  mActorInstance := actorInstance
  mOldValueQuat  := oldValue
  mCurrValueQuat := oldValue
  mOldValueVec   := ⟨0, 0, 0⟩
  mCurrValueVec  := ⟨0, 0, 0⟩

/-- `Update(const Vector3&)` overload (header line 64). -/
def UpdateVec (cb : ManipulatorCallback) (value : MCore.Vector3) :
    ManipulatorCallback :=
  { cb with mCurrValueVec := value }

/-- `Update(const Quaternion&)` overload (header line 65). -/
def UpdateQuat (cb : ManipulatorCallback) (value : MCore.Quaternion) :
    ManipulatorCallback :=
  { cb with mCurrValueQuat := value }

/-- `GetCurrValueVec()` (header line 76). -/
def GetCurrValueVec (cb : ManipulatorCallback) : MCore.Vector3 :=
  cb.mCurrValueVec

/-- `GetCurrValueQuat()` (header line 77). -/
def GetCurrValueQuat (cb : ManipulatorCallback) : MCore.Quaternion :=
  cb.mCurrValueQuat

/-- `GetOldValueVec()` (header line 83). -/
def GetOldValueVec (cb : ManipulatorCallback) : MCore.Vector3 :=
  cb.mOldValueVec

/-- `GetOldValueQuat()` (header line 84). -/
def GetOldValueQuat (cb : ManipulatorCallback) : MCore.Quaternion :=
  cb.mOldValueQuat

/-- Base `ApplyTransformation()` (header line 89):
copies both current values into the old values. -/
def ApplyTransformation (cb : ManipulatorCallback) : ManipulatorCallback :=
  { cb with mOldValueVec := cb.mCurrValueVec, mOldValueQuat := cb.mCurrValueQuat }

/-- Base `UpdateOldValues()` (header line 70): a no-op. -/
def UpdateOldValues (cb : ManipulatorCallback) : ManipulatorCallback :=
  cb

/-- `GetActorInstance()` (header line 95). -/
def GetActorInstance (cb : ManipulatorCallback) : Option Nat :=
  cb.mActorInstance

end ManipulatorCallback

/-- One call of one of the two `Update` overloads, for talking about
sequences of updates. -/
inductive UpdateArg where
  | vec  (v : MCore.Vector3)
  | quat (q : MCore.Quaternion)
  deriving DecidableEq, Repr

/-- Dispatch one `Update` call to the matching overload. -/
def applyUpdate (cb : ManipulatorCallback) : UpdateArg → ManipulatorCallback
  | .vec v  => cb.UpdateVec v
  | .quat q => cb.UpdateQuat q

/-- A finite sequence of `Update` calls, left to right. -/
def applyUpdates (cb : ManipulatorCallback) (us : List UpdateArg) :
    ManipulatorCallback :=
  us.foldl applyUpdate cb

/-- MCommon::TransformationManipulator base-class state (header lines
277-285).  `mMode` is a `uint32`, modelled as a natural number; the pointer
`mCallback` is an optional callback value. -/
structure TransformationManipulator where
  mPosition        : MCore.Vector3
  mRenderOffset    : MCore.Vector3
  mName            : String
  mTempString      : String
  mMode            : Nat
  mScalingFactor   : Rat
  mCallback        : Option ManipulatorCallback
  mSelectionLocked : Bool
  mIsVisible       : Bool
  deriving DecidableEq, Repr

namespace TransformationManipulator

/-- The default constructor
`TransformationManipulator(float scalingFactor = 1.0f, bool isVisible = true)`
(header lines 126-134).  The member `mMode` is NOT initialized by the
constructor body; the indeterminate value the member holds is made an
explicit parameter `indeterminateMode`.  `mName` and `mTempString` are
default-constructed empty strings. -/
def construct (scalingFactor : Rat) (isVisible : Bool)
    (indeterminateMode : Nat) : TransformationManipulator where
  mScalingFactor   := scalingFactor
  mIsVisible       := isVisible
  mSelectionLocked := false
  mPosition        := ⟨0, 0, 0⟩
  mRenderOffset    := ⟨0, 0, 0⟩
  mCallback        := none
  mName            := ""
  mTempString      := ""
  mMode            := indeterminateMode

/-- Base `UpdateBoundingVolumes(Camera* camera = nullptr)` (header line 243):
a no-op on the state. -/
def UpdateBoundingVolumes (m : TransformationManipulator)
    (camera : Option Nat) : TransformationManipulator :=
  m

/-- `Init(const Vector3& position)` (header line 147):
`mPosition = position + mRenderOffset; UpdateBoundingVolumes();`. -/
def Init (m : TransformationManipulator) (position : MCore.Vector3) :
    TransformationManipulator :=
  ({ m with mPosition := position + m.mRenderOffset }).UpdateBoundingVolumes none

/-- `GetPosition()` (header line 200): `mPosition - mRenderOffset`. -/
def GetPosition (m : TransformationManipulator) : MCore.Vector3 :=
  m.mPosition - m.mRenderOffset

/-- `GetRenderOffset()` (header line 207). -/
def GetRenderOffset (m : TransformationManipulator) : MCore.Vector3 :=
  m.mRenderOffset

/-- `SetRenderOffset(const Vector3& offset)` (header lines 189-194):
reads the old logical position, overwrites the offset, then re-Inits. -/
def SetRenderOffset (m : TransformationManipulator)
    (offset : MCore.Vector3) : TransformationManipulator :=
  let oldPos := m.GetPosition
  ({ m with mRenderOffset := offset }).Init oldPos

/-- `SetScale(float scale, Camera* camera = nullptr)` (header line 177):
`mScalingFactor = scale; UpdateBoundingVolumes(camera);`. -/
def SetScale (m : TransformationManipulator) (scale : Rat)
    (camera : Option Nat) : TransformationManipulator :=
  ({ m with mScalingFactor := scale }).UpdateBoundingVolumes camera

/-- `SetMode(uint32 mode)` (header line 182). -/
def SetMode (m : TransformationManipulator) (mode : Nat) :
    TransformationManipulator :=
  { m with mMode := mode }

/-- `GetMode()` (header line 226). -/
def GetMode (m : TransformationManipulator) : Nat :=
  m.mMode

/-- `GetSelectionLocked()` (header line 166). -/
def GetSelectionLocked (m : TransformationManipulator) : Bool :=
  m.mSelectionLocked

/-- `SetSelectionLocked(bool)` (header line 165). -/
def SetSelectionLocked (m : TransformationManipulator) (locked : Bool) :
    TransformationManipulator :=
  { m with mSelectionLocked := locked }

/-- `GetIsVisible()` (header line 232). -/
def GetIsVisible (m : TransformationManipulator) : Bool :=
  m.mIsVisible

/-- Base `ProcessMouseInput(...)` (header lines 263-274): every parameter
is discarded via MCORE_UNUSED and nothing is written, so the state is
returned unchanged. -/
def ProcessMouseInput (m : TransformationManipulator)
    (camera : Option Nat) (mousePosX mousePosY : Int)
    (mouseMovementX mouseMovementY : Int)
    (leftButtonPressed middleButtonPressed rightButtonPressed : Bool)
    (keyboardKeyFlags : Nat) : TransformationManipulator :=
  m

end TransformationManipulator

end MCommon

/-! ## Helper lemmas -/

/-- Vector cancellation: adding and then subtracting the same vector is the
identity, componentwise over the rationals. -/
theorem MCore.Vector3.add_sub_cancel_right (a b : MCore.Vector3) :
    a + b - b = a := by
  cases a
  cases b
  show MCore.Vector3.sub (MCore.Vector3.add _ _) _ = _
  simp [MCore.Vector3.add, MCore.Vector3.sub]

/-- A single Update call, of either overload, never touches the old values. -/
theorem MCommon.applyUpdate_preserves_old (cb : MCommon.ManipulatorCallback)
    (u : MCommon.UpdateArg) :
    (MCommon.applyUpdate cb u).mOldValueVec = cb.mOldValueVec ∧
    (MCommon.applyUpdate cb u).mOldValueQuat = cb.mOldValueQuat := by
  cases u <;>
    simp [MCommon.applyUpdate, MCommon.ManipulatorCallback.UpdateVec,
      MCommon.ManipulatorCallback.UpdateQuat]

/-! ## Claim theorems -/

/-- Claim C1: for every manipulator state (hence any prior render offset),
position p and offset o, calling SetRenderOffset(o) after Init(p) leaves
GetPosition() unchanged: it still returns the logical position p. -/
theorem C1_SetRenderOffset_preserves_GetPosition
    (m : MCommon.TransformationManipulator) (p o : MCore.Vector3) :
    ((m.Init p).SetRenderOffset o).GetPosition = p := by
  simp [MCommon.TransformationManipulator.Init,
    MCommon.TransformationManipulator.SetRenderOffset,
    MCommon.TransformationManipulator.GetPosition,
    MCommon.TransformationManipulator.UpdateBoundingVolumes,
    MCore.Vector3.add_sub_cancel_right]

/-- Claim C2: any finite sequence of Update calls (vector or quaternion),
with no ApplyTransformation or UpdateOldValues in between, leaves both
GetOldValueVec() and GetOldValueQuat() at the values the state held before
the sequence. -/
theorem C2_Updates_do_not_commit (cb : MCommon.ManipulatorCallback)
    (us : List MCommon.UpdateArg) :
    (MCommon.applyUpdates cb us).GetOldValueVec = cb.GetOldValueVec ∧
    (MCommon.applyUpdates cb us).GetOldValueQuat = cb.GetOldValueQuat := by
  induction us generalizing cb with
  | nil => exact ⟨rfl, rfl⟩
  | cons u us ih =>
    have h := MCommon.applyUpdate_preserves_old cb u
    have h2 := ih (MCommon.applyUpdate cb u)
    simpa [MCommon.applyUpdates, MCommon.ManipulatorCallback.GetOldValueVec,
      MCommon.ManipulatorCallback.GetOldValueQuat, h.1, h.2] using h2

/-- Claim C3: immediately after the base ApplyTransformation(),
GetOldValueVec() equals GetCurrValueVec() and GetOldValueQuat() equals
GetCurrValueQuat(). -/
theorem C3_ApplyTransformation_collapses (cb : MCommon.ManipulatorCallback) :
    cb.ApplyTransformation.GetOldValueVec
        = cb.ApplyTransformation.GetCurrValueVec ∧
    cb.ApplyTransformation.GetOldValueQuat
        = cb.ApplyTransformation.GetCurrValueQuat :=
  ⟨rfl, rfl⟩

/-- Claim C4: after Init(p) the invariant GetPosition() = internal position
minus renderOffset holds, and GetPosition() returns the caller-supplied
logical position p. -/
theorem C4_Init_GetPosition (m : MCommon.TransformationManipulator)
    (p : MCore.Vector3) :
    (m.Init p).GetPosition = (m.Init p).mPosition - (m.Init p).mRenderOffset ∧
    (m.Init p).GetPosition = p := by
  refine ⟨rfl, ?_⟩
  simp [MCommon.TransformationManipulator.Init,
    MCommon.TransformationManipulator.GetPosition,
    MCommon.TransformationManipulator.UpdateBoundingVolumes,
    MCore.Vector3.add_sub_cancel_right]

/-- Claim C5: the base ApplyTransformation() is idempotent: applying it twice
with no intervening Update yields exactly the state of applying it once. -/
theorem C5_ApplyTransformation_idempotent (cb : MCommon.ManipulatorCallback) :
    cb.ApplyTransformation.ApplyTransformation = cb.ApplyTransformation :=
  rfl

/-- Claim C6: the vector constructor leaves both quaternion fields at the
identity quaternion (0,0,0,1), and the quaternion constructor leaves both
vector fields at the zero vector (0,0,0). -/
theorem C6_unbound_kind_identity (a : Option Nat) (v : MCore.Vector3)
    (q : MCore.Quaternion) :
    ((MCommon.ManipulatorCallback.mkVec a v).mOldValueQuat = ⟨0, 0, 0, 1⟩ ∧
     (MCommon.ManipulatorCallback.mkVec a v).mCurrValueQuat = ⟨0, 0, 0, 1⟩) ∧
    ((MCommon.ManipulatorCallback.mkQuat a q).mOldValueVec = ⟨0, 0, 0⟩ ∧
     (MCommon.ManipulatorCallback.mkQuat a q).mCurrValueVec = ⟨0, 0, 0⟩) :=
  ⟨⟨rfl, rfl⟩, ⟨rfl, rfl⟩⟩

/-- Claim C7: the base ProcessMouseInput is a no-op: for every manipulator
state (in particular a selection-locked one, and whatever callback it holds)
and every combination of camera, mouse position, mouse movement, button
states and keyboard flags, the whole state is returned unchanged. -/
theorem C7_ProcessMouseInput_noop (m : MCommon.TransformationManipulator)
    (camera : Option Nat) (mousePosX mousePosY : Int)
    (mouseMovementX mouseMovementY : Int)
    (leftButtonPressed middleButtonPressed rightButtonPressed : Bool)
    (keyboardKeyFlags : Nat) :
    m.ProcessMouseInput camera mousePosX mousePosY mouseMovementX
      mouseMovementY leftButtonPressed middleButtonPressed rightButtonPressed
      keyboardKeyFlags = m :=
  rfl

/-- Claim C8: SetScale(s, c) sets scalingFactor to exactly s, is literally
the UpdateBoundingVolumes call on the scale-updated state with the same
camera argument, and leaves every other base-class field unchanged. -/
theorem C8_SetScale_spec (m : MCommon.TransformationManipulator) (s : Rat)
    (c : Option Nat) :
    m.SetScale s c
        = MCommon.TransformationManipulator.UpdateBoundingVolumes
            { m with mScalingFactor := s } c ∧
    (m.SetScale s c).mScalingFactor = s ∧
    (m.SetScale s c).mPosition = m.mPosition ∧
    (m.SetScale s c).mRenderOffset = m.mRenderOffset ∧
    (m.SetScale s c).mIsVisible = m.mIsVisible ∧
    (m.SetScale s c).mSelectionLocked = m.mSelectionLocked ∧
    (m.SetScale s c).mMode = m.mMode ∧
    (m.SetScale s c).mCallback = m.mCallback ∧
    (m.SetScale s c).mName = m.mName ∧
    (m.SetScale s c).mTempString = m.mTempString :=
  ⟨rfl, rfl, rfl, rfl, rfl, rfl, rfl, rfl, rfl, rfl⟩

/-- Claim C9 (code bug): the default constructor never writes mMode, so
GetMode() after construction yields whatever indeterminate value the member
held; with indeterminate memory holding 5 the result is 5, not 0. -/
theorem C9_GetMode_indeterminate_after_construction :
    (MCommon.TransformationManipulator.construct 1 true 5).GetMode = 5 ∧
    (MCommon.TransformationManipulator.construct 1 true 5).GetMode ≠ 0 :=
  ⟨rfl, by decide⟩

/-- Claim C10: immediately after either constructor the current value equals
the old value for the bound kind, and a commit (ApplyTransformation) with no
intervening Update leaves the freshly constructed state exactly unchanged. -/
theorem C10_construction_curr_eq_old (a : Option Nat) (v : MCore.Vector3)
    (q : MCore.Quaternion) :
    (MCommon.ManipulatorCallback.mkVec a v).GetCurrValueVec
        = (MCommon.ManipulatorCallback.mkVec a v).GetOldValueVec ∧
    (MCommon.ManipulatorCallback.mkQuat a q).GetCurrValueQuat
        = (MCommon.ManipulatorCallback.mkQuat a q).GetOldValueQuat ∧
    (MCommon.ManipulatorCallback.mkVec a v).ApplyTransformation
        = MCommon.ManipulatorCallback.mkVec a v ∧
    (MCommon.ManipulatorCallback.mkQuat a q).ApplyTransformation
        = MCommon.ManipulatorCallback.mkQuat a q :=
  ⟨rfl, rfl, rfl, rfl⟩
